import Mathlib

/-
Shallow embedding of the chatbot application in src/app.py.

The application is a Streamlit single-page chat interface.  Its session
state (st.session_state) is modelled as an explicit `SessionState` record,
and each event handler of the source (process_user_message, the sidebar's
buttons, Clear Chat History) becomes a pure state-transition function.
The Completion Client (the conversation chain's `predict`) is an external
collaborator: each turn takes an oracle `outcome : Except String String`
standing for the text the hosted model would return, or the string of the
exception `predict` would raise.  Every client call a transition performs
is recorded in its result, so that claims about when the boundary is
contacted are statable.
-/

namespace AIChatbot

/-- Character-list substring test, `needle.isPrefixOf` at each tail of the
haystack.  Backs `strIn` below. -/
def containsChars (needle : List Char) : List Char → Bool
  | [] => needle.isEmpty
  | c :: rest => needle.isPrefixOf (c :: rest) || containsChars needle rest

/-- Python's `needle in hay` substring operator on strings. -/
def strIn (needle hay : String) : Bool :=
  containsChars needle.data hay.data

/-- Python's `str.lower()` (the source only ever lowers ASCII text). -/
def lowerStr (s : String) : String :=
  ⟨s.data.map Char.toLower⟩

/-- Python's `name.endswith(suffix)`. -/
def endsWithStr (suffix s : String) : Bool :=
  List.isSuffixOf suffix.data s.data

/-- get_rule_based_response (src/app.py lines 256-276): the rule-based
fallback responder used when the API is unavailable.  Ordered keyword
checks on the lowered input; first match wins. -/
def get_rule_based_response (user_input : String) : String :=
  let user_input_lower := lowerStr user_input
  if ["hello", "hi", "hey"].any (fun greeting => strIn greeting user_input_lower) then
    "Hello! I'm currently running in fallback mode. How can I help you?"
  else if strIn "how are you" user_input_lower then
    "I'm doing well, though I'm currently operating in a limited fallback mode."
  else if strIn "help" user_input_lower then
    "I'm in fallback mode right now, but I'd be happy to help as best I can."
  else if ["thank", "thanks", "appreciate"].any (fun thanks => strIn thanks user_input_lower) then
    "You're welcome! Happy to assist even in fallback mode."
  else if ["what is", "who is", "how to", "where", "when", "why"].any
      (fun q_word => strIn q_word user_input_lower) then
    "That's an interesting question about '" ++ user_input ++
      "'. When I'm back to full functionality, I'll provide a more detailed answer."
  else if strIn "?" user_input then
    "That's a good question. Unfortunately, I'm currently in fallback mode and can't provide a complete answer."
  else
    "I'm in fallback mode due to API limitations. I can only provide basic responses at the moment."

/-- The fallback responder as the SPEC words its evaluation order (section 4.5:
greeting, gratitude, help request, "how are you", question patterns, default).
The individual rules and canned texts are the source's; only the order of the
checks follows the spec's sentence.  For comparison with
`get_rule_based_response`, which is transcribed from the source. -/
def spec_order_response (user_input : String) : String :=
  let user_input_lower := lowerStr user_input
  if ["hello", "hi", "hey"].any (fun greeting => strIn greeting user_input_lower) then
    "Hello! I'm currently running in fallback mode. How can I help you?"
  else if ["thank", "thanks", "appreciate"].any (fun thanks => strIn thanks user_input_lower) then
    "You're welcome! Happy to assist even in fallback mode."
  else if strIn "help" user_input_lower then
    "I'm in fallback mode right now, but I'd be happy to help as best I can."
  else if strIn "how are you" user_input_lower then
    "I'm doing well, though I'm currently operating in a limited fallback mode."
  else if ["what is", "who is", "how to", "where", "when", "why"].any
      (fun q_word => strIn q_word user_input_lower) then
    "That's an interesting question about '" ++ user_input ++
      "'. When I'm back to full functionality, I'll provide a more detailed answer."
  else if strIn "?" user_input then
    "That's a good question. Unfortunately, I'm currently in fallback mode and can't provide a complete answer."
  else
    "I'm in fallback mode due to API limitations. I can only provide basic responses at the moment."

/-- One fallback rule: a match predicate on the user's text and the response
it produces from that text. -/
structure FallbackRule where
  applies : String → Bool
  response : String → String

/-- First matching rule wins; when no rule matches, the default applies. -/
def first_matching (rules : List FallbackRule) (default : String → String)
    (u : String) : String :=
  match rules with
  | [] => default u
  | r :: rest => if r.applies u then r.response u else first_matching rest default u

/-- The source's fallback rules in their actual evaluation order: greeting,
"how are you", help, gratitude, question-word patterns, question mark. -/
def fallback_rules : List FallbackRule :=
  [ ⟨fun u => ["hello", "hi", "hey"].any (fun greeting => strIn greeting (lowerStr u)),
      fun _ => "Hello! I'm currently running in fallback mode. How can I help you?"⟩,
    ⟨fun u => strIn "how are you" (lowerStr u),
      fun _ => "I'm doing well, though I'm currently operating in a limited fallback mode."⟩,
    ⟨fun u => strIn "help" (lowerStr u),
      fun _ => "I'm in fallback mode right now, but I'd be happy to help as best I can."⟩,
    ⟨fun u => ["thank", "thanks", "appreciate"].any (fun thanks => strIn thanks (lowerStr u)),
      fun _ => "You're welcome! Happy to assist even in fallback mode."⟩,
    ⟨fun u => ["what is", "who is", "how to", "where", "when", "why"].any
        (fun q_word => strIn q_word (lowerStr u)),
      fun u => "That's an interesting question about '" ++ u ++
        "'. When I'm back to full functionality, I'll provide a more detailed answer."⟩,
    ⟨fun u => strIn "?" u,
      fun _ => "That's a good question. Unfortunately, I'm currently in fallback mode and can't provide a complete answer."⟩ ]

/-- The source's default fallback message. -/
def fallback_default : String → String :=
  fun _ => "I'm in fallback mode due to API limitations. I can only provide basic responses at the moment."

/-- Message role: the source distinguishes exactly HumanMessage and AIMessage. -/
inductive Role where
  | human
  | ai
deriving DecidableEq

/-- A chat message as held in st.session_state.chat_history. -/
structure Message where
  role : Role
  content : String
deriving DecidableEq

/-- One record of the persisted transcript format: the serializable dict
written by save_chat_history and read back by load_chat_history.  The JSON
encoding around it is treated as faithful. -/
structure SerializedMessage where
  role : String
  content : String
  timestamp : String
deriving DecidableEq

/-- The serialization loop of save_chat_history (src/app.py lines 52-56):
HumanMessage becomes role "human", AIMessage becomes role "ai", both keep
their content and get the current timestamp.  The history holds only these
two message kinds, so no message is dropped. -/
def serialize_history (chat_history : List Message) (current_time : String) :
    List SerializedMessage :=
  chat_history.map (fun msg =>
    match msg.role with
    | .human => ⟨"human", msg.content, current_time⟩
    | .ai => ⟨"ai", msg.content, current_time⟩)

/-- save_chat_history (src/app.py lines 45-71): serializes and writes the
history only when it is nonempty, returning the saved content (the source
returns the filename it wrote the content to); otherwise returns none.
File-system failures are environmental and not modelled. -/
def save_chat_history (chat_history : List Message) (current_time : String) :
    Option (List SerializedMessage) :=
  if chat_history ≠ [] then some (serialize_history chat_history current_time)
  else none

/-- The reconstruction loop of load_chat_history (src/app.py lines 82-90):
role "human" becomes a HumanMessage, role "ai" an AIMessage, any other role
is skipped; timestamps are dropped. -/
def load_messages (serialized_history : List SerializedMessage) : List Message :=
  match serialized_history with
  | [] => []
  | msg :: rest =>
    if msg.role = "human" then ⟨.human, msg.content⟩ :: load_messages rest
    else if msg.role = "ai" then ⟨.ai, msg.content⟩ :: load_messages rest
    else load_messages rest

/-- The conversation object built by initialize_rag_conversation: a chain
holding the language model (its model name), the personality baked into its
prompt, and whether a retriever over a vectorstore is attached. -/
structure Conversation where
  model_name : String
  personality : String
  has_vectorstore : Bool
deriving DecidableEq

/-- initialize_rag_conversation (src/app.py lines 156-254): builds a
conversation chain from the model name, personality and optional
vectorstore.  Constructor failures (missing key, library errors) are
environmental and not modelled: the happy path always returns a chain. -/
def initialize_rag_conversation (model_name personality : String)
    (vectorstore : Bool) : Option Conversation :=
  some ⟨model_name, personality, vectorstore⟩

/-- The relevant fields of st.session_state, as initialized by main
(src/app.py lines 464-492). -/
structure SessionState where
  chat_history : List Message
  model_name : String
  personality : String
  fallback_mode : Bool
  vectorstore : Bool
  conversation : Option Conversation
deriving DecidableEq

/-- One call across the Completion Client boundary: the model of the chain
whose predict was invoked, and the user input passed to it. -/
structure ClientCall where
  model : String
  input : String
deriving DecidableEq

/-- The result of one process_user_message turn: the new session state, the
texts written to the page (user echo, warnings, errors, assistant reply),
the Completion Client calls made, and whether save_chat_history ran. -/
structure StepResult where
  state : SessionState
  displayed : List String
  calls : List ClientCall
  saved : Bool
deriving DecidableEq

/-- The quota/rate classification of process_user_message (src/app.py line
444): the lowered exception text contains "quota", "rate", "429" or
"insufficient". -/
def is_quota_error (api_error : String) : Bool :=
  let error_str := lowerStr api_error
  ["quota", "rate", "429", "insufficient"].any (fun term => strIn term error_str)

/-- The fixed placeholder appended on a non-quota API error (src/app.py
line 455). -/
def error_response : String :=
  "I encountered an error processing your request. Please try again."

/-- The first statement of process_user_message (src/app.py line 418):
append the user's message to the chat history. -/
def append_user (s : SessionState) (user_input : String) : SessionState :=
  { s with chat_history := s.chat_history ++ [⟨.human, user_input⟩] }

/-- process_user_message (src/app.py lines 415-457) as a state transition.
The oracle `outcome` is the Completion Client's behavior on this turn: the
response text, or the string of the exception predict raises.  When no
conversation object exists, `predict` on None raises an AttributeError
inside the same try block, caught like any API error, with no client call
made. -/
def process_user_message (s : SessionState) (user_input : String)
    (outcome : Except String String) : StepResult :=
  let s1 := append_user s user_input
  if s1.fallback_mode then
    let response := get_rule_based_response user_input
    { state := { s1 with chat_history := s1.chat_history ++ [⟨.ai, response⟩] }
      displayed := [user_input, response]
      calls := []
      saved := false }
  else
    let attempt : Except String String × List ClientCall :=
      match s1.conversation with
      | none => (.error "'NoneType' object has no attribute 'predict'", [])
      | some conv => (outcome, [⟨conv.model_name, user_input⟩])
    match attempt with
    | (.ok response, calls) =>
      { state := { s1 with chat_history := s1.chat_history ++ [⟨.ai, response⟩] }
        displayed := [user_input, response]
        calls := calls
        saved := true }
    | (.error api_error, calls) =>
      if is_quota_error api_error then
        let fallback_response := get_rule_based_response user_input
        { state := { s1 with
                       chat_history := s1.chat_history ++ [⟨.ai, fallback_response⟩]
                       fallback_mode := true }
          displayed := [user_input, "Using fallback mode due to API limitations",
                        fallback_response]
          calls := calls
          saved := false }
      else
        { state := { s1 with chat_history := s1.chat_history ++ [⟨.ai, error_response⟩] }
          displayed := [user_input, "API error: " ++ api_error, error_response]
          calls := calls
          saved := false }

/-- Run a sequence of user turns, each with its own client oracle, and
collect every Completion Client call made along the way. -/
def process_turns (s : SessionState) :
    List (String × Except String String) → SessionState × List ClientCall
  | [] => (s, [])
  | (user_input, outcome) :: rest =>
    let r := process_user_message s user_input outcome
    let (s2, calls) := process_turns r.state rest
    (s2, r.calls ++ calls)

/-- The sidebar's "Try API Again" button (src/app.py lines 326-328): manual
recovery clears the fallback flag. -/
def try_api_again (s : SessionState) : SessionState :=
  { s with fallback_mode := false }

/-- The "Clear Chat History" button (src/app.py lines 514-537): empties the
history, clears the fallback flag and reinitializes the conversation with
the current settings. -/
def clear_chat_history (s : SessionState) : SessionState :=
  { s with chat_history := []
           fallback_mode := false
           conversation :=
             initialize_rag_conversation s.model_name s.personality s.vectorstore }

/-- The sidebar's "Apply Model Change" handler (src/app.py lines 342-363):
stores the selected model name; outside fallback mode, also rebuilds the
conversation with the new model, keeping personality and vectorstore. -/
def apply_model_change (s : SessionState) (model_name : String) : SessionState :=
  let s1 := { s with model_name := model_name }
  if s1.fallback_mode then s1
  else { s1 with conversation :=
                   initialize_rag_conversation model_name s1.personality s1.vectorstore }

/-- The sidebar's "Apply Personality Change" handler (src/app.py lines
374-393): stores the selected personality; outside fallback mode, also
rebuilds the conversation with the new personality. -/
def apply_personality_change (s : SessionState) (personality : String) : SessionState :=
  let s1 := { s with personality := personality }
  if s1.fallback_mode then s1
  else { s1 with conversation :=
                   initialize_rag_conversation s1.model_name personality s1.vectorstore }

/-- The document loader kinds of process_documents (src/app.py lines
115-122). -/
inductive LoaderKind where
  | pdf
  | text
  | csv
  | docx
deriving DecidableEq

/-- The per-file dispatch outcome of process_documents: either a loader is
chosen by extension, or the file is unsupported. -/
inductive FileAction where
  | loadWith (kind : LoaderKind)
  | skipUnsupported
deriving DecidableEq

/-- The extension dispatch of process_documents (src/app.py lines 115-125):
.pdf, .txt, .csv, .docx/.doc choose a loader; anything else is unsupported. -/
def classify_file (name : String) : FileAction :=
  if endsWithStr ".pdf" name then .loadWith .pdf
  else if endsWithStr ".txt" name then .loadWith .text
  else if endsWithStr ".csv" name then .loadWith .csv
  else if endsWithStr ".docx" name || endsWithStr ".doc" name then .loadWith .docx
  else .skipUnsupported

/-- The documents gathered and the warnings shown by a run of
process_documents. -/
structure DocResult where
  documents : List String
  warnings : List String
deriving DecidableEq

/-- The per-file loop of process_documents (src/app.py lines 107-132) over
the uploaded file names.  The oracle `loader` stands for the format-specific
document loaders (PyPDFLoader, TextLoader, CSVLoader, Docx2txtLoader): the
documents each yields for a file.  An unsupported file produces the warning
"Unsupported file type: NAME. Skipping." and the loop continues with the
next file; loader exceptions are environmental and not modelled. -/
def process_documents (loader : LoaderKind → String → List String) :
    List String → DocResult
  | [] => ⟨[], []⟩
  | name :: rest =>
    let r := process_documents loader rest
    match classify_file name with
    | .loadWith kind => ⟨loader kind name ++ r.documents, r.warnings⟩
    | .skipUnsupported =>
      ⟨r.documents, ("Unsupported file type: " ++ name ++ ". Skipping.") :: r.warnings⟩

/-- A ready (READY, non-fallback) session used to instantiate theorems with
hypotheses at concrete inputs. -/
def ready_state : SessionState :=
  { chat_history := []
    model_name := "gpt-4o"
    personality := "Helpful Assistant"
    fallback_mode := false
    vectorstore := false
    conversation := some ⟨"gpt-4o", "Helpful Assistant", false⟩ }

/-- The same session in DEGRADED (fallback) mode. -/
def degraded_state : SessionState :=
  { ready_state with fallback_mode := true }

/-- A concrete loader oracle for evaluating process_documents: each
supported file yields one document holding the file's name. -/
def one_doc_loader : LoaderKind → String → List String :=
  fun _ name => [name]

/-- The fallback branch of process_user_message (src/app.py lines 427-430),
as one equation. -/
theorem process_user_message_fallback (s : SessionState) (user_input : String)
    (outcome : Except String String) (h : s.fallback_mode = true) :
    process_user_message s user_input outcome =
      { state := { s with chat_history := s.chat_history ++
            [⟨.human, user_input⟩, ⟨.ai, get_rule_based_response user_input⟩] }
        displayed := [user_input, get_rule_based_response user_input]
        calls := []
        saved := false } := by
  simp [process_user_message, append_user, h]

/-- The success branch of process_user_message (src/app.py lines 432-439),
as one equation. -/
theorem process_user_message_ok (s : SessionState) (conv : Conversation)
    (user_input response : String) (h1 : s.fallback_mode = false)
    (h2 : s.conversation = some conv) :
    process_user_message s user_input (.ok response) =
      { state := { s with chat_history := s.chat_history ++
            [⟨.human, user_input⟩, ⟨.ai, response⟩] }
        displayed := [user_input, response]
        calls := [⟨conv.model_name, user_input⟩]
        saved := true } := by
  simp [process_user_message, append_user, h1, h2]

/-- The quota/rate failure branch of process_user_message (src/app.py lines
444-451), as one equation. -/
theorem process_user_message_quota (s : SessionState) (conv : Conversation)
    (user_input api_error : String) (h1 : s.fallback_mode = false)
    (h2 : s.conversation = some conv) (h3 : is_quota_error api_error = true) :
    process_user_message s user_input (.error api_error) =
      { state := { s with
            chat_history := s.chat_history ++
              [⟨.human, user_input⟩, ⟨.ai, get_rule_based_response user_input⟩]
            fallback_mode := true }
        displayed := [user_input, "Using fallback mode due to API limitations",
                      get_rule_based_response user_input]
        calls := [⟨conv.model_name, user_input⟩]
        saved := false } := by
  simp [process_user_message, append_user, h1, h2, h3]

/-- The non-quota failure branch of process_user_message (src/app.py lines
452-457), as one equation. -/
theorem process_user_message_api_error (s : SessionState) (conv : Conversation)
    (user_input api_error : String) (h1 : s.fallback_mode = false)
    (h2 : s.conversation = some conv) (h3 : is_quota_error api_error = false) :
    process_user_message s user_input (.error api_error) =
      { state := { s with chat_history := s.chat_history ++
            [⟨.human, user_input⟩, ⟨.ai, error_response⟩] }
        displayed := [user_input, "API error: " ++ api_error, error_response]
        calls := [⟨conv.model_name, user_input⟩]
        saved := false } := by
  simp [process_user_message, append_user, h1, h2, h3]

/-- Every turn appends the user's message and exactly one assistant message,
on every branch of process_user_message. -/
theorem process_history_shape (s : SessionState) (user_input : String)
    (outcome : Except String String) :
    ∃ response, (process_user_message s user_input outcome).state.chat_history =
      s.chat_history ++ [⟨.human, user_input⟩, ⟨.ai, response⟩] := by
  cases hf : s.fallback_mode with
  | true =>
    exact ⟨get_rule_based_response user_input,
      by rw [process_user_message_fallback s user_input outcome hf]⟩
  | false =>
    cases hc : s.conversation with
    | none =>
      refine ⟨error_response, ?_⟩
      have hq : is_quota_error "'NoneType' object has no attribute 'predict'" = false := by
        decide
      simp [process_user_message, append_user, hf, hc, hq]
    | some conv =>
      cases outcome with
      | ok response =>
        exact ⟨response, by rw [process_user_message_ok s conv user_input response hf hc]⟩
      | error api_error =>
        cases hq : is_quota_error api_error with
        | true =>
          exact ⟨get_rule_based_response user_input,
            by rw [process_user_message_quota s conv user_input api_error hf hc hq]⟩
        | false =>
          exact ⟨error_response,
            by rw [process_user_message_api_error s conv user_input api_error hf hc hq]⟩

/-- Deserializing what serialize_history produced restores the original
message sequence: roles and contents intact, in order. -/
theorem load_messages_serialize (chat_history : List Message) (current_time : String) :
    load_messages (serialize_history chat_history current_time) = chat_history := by
  induction chat_history with
  | nil => rfl
  | cons msg rest ih =>
    obtain ⟨role, content⟩ := msg
    cases role <;> simp [serialize_history, load_messages] <;>
      simpa [serialize_history] using ih

/-- Fallback mode is sticky across turns: once set, processing any further
turns keeps it set and makes no Completion Client call. -/
theorem process_turns_fallback (turns : List (String × Except String String)) :
    ∀ s : SessionState, s.fallback_mode = true →
      (process_turns s turns).1.fallback_mode = true ∧ (process_turns s turns).2 = [] := by
  induction turns with
  | nil => intro s h; exact ⟨h, rfl⟩
  | cons turn rest ih =>
    intro s h
    have hstep := process_user_message_fallback s turn.1 turn.2 h
    have hrest := ih (process_user_message s turn.1 turn.2).state (by rw [hstep]; exact h)
    constructor
    · show (process_turns (process_user_message s turn.1 turn.2).state rest).1.fallback_mode = true
      exact hrest.1
    · show (process_user_message s turn.1 turn.2).calls ++
        (process_turns (process_user_message s turn.1 turn.2).state rest).2 = []
      rw [hrest.2, hstep]
      rfl

/-- C1: for every user input submitted while the session is in DEGRADED
(fallback) mode, processing the message never invokes the Completion Client
boundary — no predict call is made — and the assistant reply appended is
exactly the rule-based fallback responder's output for the input. -/
theorem submit_in_degraded_never_calls_client (s : SessionState)
    (user_input : String) (outcome : Except String String)
    (h : s.fallback_mode = true) :
    (process_user_message s user_input outcome).calls = [] ∧
    (process_user_message s user_input outcome).state.chat_history =
      s.chat_history ++ [⟨.human, user_input⟩, ⟨.ai, get_rule_based_response user_input⟩] := by
  rw [process_user_message_fallback s user_input outcome h]
  exact ⟨rfl, rfl⟩

/-- C1 witness: a concrete degraded session processing "hello" makes no
Completion Client call. -/
theorem submit_in_degraded_never_calls_client_witness :
    degraded_state.fallback_mode = true ∧
    (process_user_message degraded_state "hello" (.ok "resp")).calls = [] :=
  ⟨rfl, (submit_in_degraded_never_calls_client degraded_state "hello" (.ok "resp") rfl).1⟩

/-- C2 counterexample: the claimed evaluation order (greeting, gratitude,
help, "how are you", question patterns, default) is not the code's.  On
"thanks for the help" the gratitude rule matches, so under the claimed order
the output would be the gratitude response (as spec_order_response shows),
but get_rule_based_response checks "help" before gratitude and returns the
help response instead. -/
theorem fallback_order_differs_from_spec :
    ["thank", "thanks", "appreciate"].any
      (fun thanks => strIn thanks (lowerStr "thanks for the help")) = true ∧
    get_rule_based_response "thanks for the help" =
      "I'm in fallback mode right now, but I'd be happy to help as best I can." ∧
    spec_order_response "thanks for the help" =
      "You're welcome! Happy to assist even in fallback mode." ∧
    get_rule_based_response "thanks for the help" ≠
      spec_order_response "thanks for the help" := by
  refine ⟨by decide, by decide, by decide, by decide⟩

/-- C2 (amended): the fallback responder maps user text to canned text by
ordered keyword checks in the fixed evaluation order greeting, "how are
you", help request, gratitude, question-word patterns, question mark,
default; for every input the first matching rule in that order determines
the output. -/
theorem fallback_first_matching_order (user_input : String) :
    get_rule_based_response user_input =
      first_matching fallback_rules fallback_default user_input := by
  rfl

/-- C3: saving a nonempty transcript and loading the saved content yields a
message sequence with identical roles and identical contents, in the
original order. -/
theorem save_load_round_trip (chat_history : List Message) (current_time : String)
    (h : chat_history ≠ []) :
    ∃ saved, save_chat_history chat_history current_time = some saved ∧
      load_messages saved = chat_history :=
  ⟨serialize_history chat_history current_time, by simp [save_chat_history, h],
   load_messages_serialize chat_history current_time⟩

/-- C3 witness: a concrete two-message transcript round-trips. -/
theorem save_load_round_trip_witness :
    ([⟨.human, "hi"⟩, ⟨.ai, "hello"⟩] : List Message) ≠ [] ∧
    ∃ saved, save_chat_history [⟨.human, "hi"⟩, ⟨.ai, "hello"⟩] "2025-01-01T00:00:00" =
        some saved ∧
      load_messages saved = [⟨.human, "hi"⟩, ⟨.ai, "hello"⟩] :=
  ⟨by decide,
   save_load_round_trip [⟨.human, "hi"⟩, ⟨.ai, "hello"⟩] "2025-01-01T00:00:00" (by decide)⟩

/-- C4: when a submit's Completion Client call fails with a quota/rate
classified error, the session enters DEGRADED (fallback_mode becomes true),
the assistant reply appended is the keyword-matched canned response for the
user's input, and no sequence of further submits makes any Completion
Client call (recovery happens only through the manual try_api_again). -/
theorem quota_error_enters_degraded (s : SessionState) (conv : Conversation)
    (user_input api_error : String)
    (h1 : s.fallback_mode = false) (h2 : s.conversation = some conv)
    (h3 : is_quota_error api_error = true) :
    (process_user_message s user_input (.error api_error)).state.fallback_mode = true ∧
    (process_user_message s user_input (.error api_error)).state.chat_history =
      s.chat_history ++ [⟨.human, user_input⟩, ⟨.ai, get_rule_based_response user_input⟩] ∧
    ∀ turns, (process_turns
      (process_user_message s user_input (.error api_error)).state turns).2 = [] := by
  rw [process_user_message_quota s conv user_input api_error h1 h2 h3]
  refine ⟨rfl, rfl, fun turns => ?_⟩
  exact (process_turns_fallback turns _ rfl).2

/-- C4 witness: a concrete ready session hit by a 429 rate-limit error
enters DEGRADED with the canned greeting, and two later turns make no
client call. -/
theorem quota_error_enters_degraded_witness :
    ready_state.fallback_mode = false ∧
    is_quota_error "Rate limit reached (429)" = true ∧
    (process_user_message ready_state "hello" (.error "Rate limit reached (429)")).state.fallback_mode = true ∧
    (process_turns (process_user_message ready_state "hello" (.error "Rate limit reached (429)")).state
      [("what is rust?", .ok "resp"), ("thanks", .error "boom")]).2 = [] :=
  ⟨rfl, by decide,
   (quota_error_enters_degraded ready_state ⟨"gpt-4o", "Helpful Assistant", false⟩
     "hello" "Rate limit reached (429)" rfl rfl (by decide)).1,
   (quota_error_enters_degraded ready_state ⟨"gpt-4o", "Helpful Assistant", false⟩
     "hello" "Rate limit reached (429)" rfl rfl (by decide)).2.2
     [("what is rust?", .ok "resp"), ("thanks", .error "boom")]⟩

/-- C5 counterexample: on a quota failure the code makes exactly one
Completion Client call, against the configured model only, and enters
DEGRADED immediately: no retry and no fallback completion attempt against
the designated cheaper model ("gpt-3.5-turbo") occurs before giving up. -/
theorem no_retry_no_cheaper_model_attempt :
    (process_user_message ready_state "hello"
      (.error "You exceeded your current quota")).calls = [⟨"gpt-4o", "hello"⟩] ∧
    (process_user_message ready_state "hello"
      (.error "You exceeded your current quota")).calls.length = 1 ∧
    ClientCall.mk "gpt-3.5-turbo" "hello" ∉
      (process_user_message ready_state "hello"
        (.error "You exceeded your current quota")).calls ∧
    (process_user_message ready_state "hello"
      (.error "You exceeded your current quota")).state.fallback_mode = true := by
  refine ⟨by decide, by decide, by decide, by decide⟩

/-- C5 (amended): on any CompletionError, submit makes exactly one
Completion Client call — no retries, no delay, and no fallback attempt
against a cheaper model — and on a quota/rate error it enters DEGRADED
immediately after that single call. -/
theorem single_attempt_then_degraded (s : SessionState) (conv : Conversation)
    (user_input api_error : String)
    (h1 : s.fallback_mode = false) (h2 : s.conversation = some conv) :
    (process_user_message s user_input (.error api_error)).calls =
      [⟨conv.model_name, user_input⟩] ∧
    (is_quota_error api_error = true →
      (process_user_message s user_input (.error api_error)).state.fallback_mode = true) := by
  cases hq : is_quota_error api_error with
  | true =>
    rw [process_user_message_quota s conv user_input api_error h1 h2 hq]
    exact ⟨rfl, fun _ => rfl⟩
  | false =>
    rw [process_user_message_api_error s conv user_input api_error h1 h2 hq]
    exact ⟨rfl, fun hcontra => by simp at hcontra⟩

/-- C5 witness: the amended statement at a concrete ready session and a
concrete quota error. -/
theorem single_attempt_then_degraded_witness :
    (process_user_message ready_state "hi" (.error "insufficient_quota")).calls =
      [⟨"gpt-4o", "hi"⟩] ∧
    (process_user_message ready_state "hi" (.error "insufficient_quota")).state.fallback_mode = true :=
  ⟨(single_attempt_then_degraded ready_state ⟨"gpt-4o", "Helpful Assistant", false⟩
      "hi" "insufficient_quota" rfl rfl).1,
   (single_attempt_then_degraded ready_state ⟨"gpt-4o", "Helpful Assistant", false⟩
      "hi" "insufficient_quota" rfl rfl).2 (by decide)⟩

/-- C6 counterexample: an uploaded file with an unsupported extension is not
rejected with an explicit error — process_documents produces the warning
"Unsupported file type: notes.exe. Skipping.", skips the file, and goes on
to load the remaining supported files. -/
theorem unsupported_file_skipped_not_rejected :
    classify_file "notes.exe" = .skipUnsupported ∧
    process_documents one_doc_loader ["notes.exe", "paper.txt"] =
      ⟨["paper.txt"], ["Unsupported file type: notes.exe. Skipping."]⟩ := by
  refine ⟨by decide, by decide⟩

/-- C6 (amended): document ingestion skips a file whose extension is
unsupported, emitting the warning "Unsupported file type: NAME. Skipping.",
and continues with the remaining files; there is no error outcome. -/
theorem unsupported_file_warns_and_continues
    (loader : LoaderKind → String → List String) (name : String)
    (files : List String) (h : classify_file name = .skipUnsupported) :
    process_documents loader (name :: files) =
      ⟨(process_documents loader files).documents,
       ("Unsupported file type: " ++ name ++ ". Skipping.") ::
         (process_documents loader files).warnings⟩ := by
  simp [process_documents, h]

/-- C6 witness: the amended statement at a concrete unsupported file. -/
theorem unsupported_file_warns_and_continues_witness :
    classify_file "img.png" = .skipUnsupported ∧
    process_documents one_doc_loader ["img.png", "a.txt"] =
      ⟨(process_documents one_doc_loader ["a.txt"]).documents,
       ("Unsupported file type: " ++ "img.png" ++ ". Skipping.") ::
         (process_documents one_doc_loader ["a.txt"]).warnings⟩ :=
  ⟨by decide, unsupported_file_warns_and_continues one_doc_loader "img.png" ["a.txt"] (by decide)⟩

/-- C7: Clear Chat History truncates the history to empty and discards the
DEGRADED flag, and a subsequent submit's first step finds a history of
length exactly 1 — the user's message — before the assistant reply is
appended; after the turn the history holds exactly the user message and one
assistant reply. -/
theorem clear_chat_then_submit (s : SessionState) (user_input : String)
    (outcome : Except String String) :
    (clear_chat_history s).chat_history = [] ∧
    (clear_chat_history s).fallback_mode = false ∧
    (append_user (clear_chat_history s) user_input).chat_history.length = 1 ∧
    ∃ response,
      (process_user_message (clear_chat_history s) user_input outcome).state.chat_history =
        [⟨.human, user_input⟩, ⟨.ai, response⟩] := by
  refine ⟨rfl, rfl, rfl, ?_⟩
  obtain ⟨response, hresp⟩ := process_history_shape (clear_chat_history s) user_input outcome
  exact ⟨response, by simpa using hresp⟩

/-- C8: applying a model or personality change updates only the selected
configuration field and the conversation object: the chat history, the
fallback flag, the vectorstore and the other configuration field are left
unchanged; and the configuration takes effect only on the next submit —
whose Completion Client call (outside fallback mode) uses the new model. -/
theorem switch_model_persona_frame (s : SessionState)
    (model_name personality user_input : String) (outcome : Except String String) :
    (apply_model_change s model_name).chat_history = s.chat_history ∧
    (apply_model_change s model_name).personality = s.personality ∧
    (apply_model_change s model_name).fallback_mode = s.fallback_mode ∧
    (apply_model_change s model_name).vectorstore = s.vectorstore ∧
    (apply_model_change s model_name).model_name = model_name ∧
    (apply_personality_change s personality).chat_history = s.chat_history ∧
    (apply_personality_change s personality).model_name = s.model_name ∧
    (apply_personality_change s personality).fallback_mode = s.fallback_mode ∧
    (apply_personality_change s personality).vectorstore = s.vectorstore ∧
    (apply_personality_change s personality).personality = personality ∧
    (s.fallback_mode = false →
      (process_user_message (apply_model_change s model_name) user_input outcome).calls =
        [⟨model_name, user_input⟩]) := by
  cases hf : s.fallback_mode with
  | true =>
    refine ⟨?_, ?_, ?_, ?_, ?_, ?_, ?_, ?_, ?_, ?_, fun hcontra => by simp [hf] at hcontra⟩ <;>
      simp [apply_model_change, apply_personality_change, hf]
  | false =>
    have hstate : apply_model_change s model_name =
        { s with model_name := model_name
                 conversation := some ⟨model_name, s.personality, s.vectorstore⟩ } := by
      simp [apply_model_change, hf, initialize_rag_conversation]
    refine ⟨?_, ?_, ?_, ?_, ?_, ?_, ?_, ?_, ?_, ?_, fun _ => ?_⟩
    case _ => simp [apply_model_change, hf]
    case _ => simp [apply_model_change, hf]
    case _ => simp [apply_model_change, hf]
    case _ => simp [apply_model_change, hf]
    case _ => simp [apply_model_change, hf]
    case _ => simp [apply_personality_change, hf]
    case _ => simp [apply_personality_change, hf]
    case _ => simp [apply_personality_change, hf]
    case _ => simp [apply_personality_change, hf]
    case _ => simp [apply_personality_change, hf]
    case _ =>
      cases outcome with
      | ok response =>
        rw [process_user_message_ok (apply_model_change s model_name)
          ⟨model_name, s.personality, s.vectorstore⟩ user_input response
          (by rw [hstate]; exact hf) (by rw [hstate])]
      | error api_error =>
        cases hq : is_quota_error api_error with
        | true =>
          rw [process_user_message_quota (apply_model_change s model_name)
            ⟨model_name, s.personality, s.vectorstore⟩ user_input api_error
            (by rw [hstate]; exact hf) (by rw [hstate]) hq]
        | false =>
          rw [process_user_message_api_error (apply_model_change s model_name)
            ⟨model_name, s.personality, s.vectorstore⟩ user_input api_error
            (by rw [hstate]; exact hf) (by rw [hstate]) hq]

/-- C8 witness: the frame and the takes-effect property at a concrete ready
session switching to the cheaper model. -/
theorem switch_model_persona_frame_witness :
    (apply_model_change ready_state "gpt-3.5-turbo").chat_history = ready_state.chat_history ∧
    (process_user_message (apply_model_change ready_state "gpt-3.5-turbo") "hi" (.ok "r")).calls =
      [⟨"gpt-3.5-turbo", "hi"⟩] :=
  ⟨(switch_model_persona_frame ready_state "gpt-3.5-turbo" "Friendly Teacher" "hi" (.ok "r")).1,
   (switch_model_persona_frame ready_state "gpt-3.5-turbo" "Friendly Teacher" "hi"
     (.ok "r")).2.2.2.2.2.2.2.2.2.2 rfl⟩

/-- C9: on a completion failure not classified as quota/rate, the error's
text is surfaced unchanged in the displayed output (after the fixed "API
error: " prefix), the only history mutation beyond the user's own message is
the single fixed error-description placeholder assistant message, and the
session does not enter fallback mode. -/
theorem non_quota_error_surfaced (s : SessionState) (conv : Conversation)
    (user_input api_error : String)
    (h1 : s.fallback_mode = false) (h2 : s.conversation = some conv)
    (h3 : is_quota_error api_error = false) :
    (process_user_message s user_input (.error api_error)).displayed =
      [user_input, "API error: " ++ api_error, error_response] ∧
    (process_user_message s user_input (.error api_error)).state.chat_history =
      s.chat_history ++ [⟨.human, user_input⟩, ⟨.ai, error_response⟩] ∧
    (process_user_message s user_input (.error api_error)).state.fallback_mode = false := by
  rw [process_user_message_api_error s conv user_input api_error h1 h2 h3]
  exact ⟨rfl, rfl, h1⟩

/-- C9 witness: a concrete non-quota error ("Bad gateway") is surfaced and
only the placeholder is appended. -/
theorem non_quota_error_surfaced_witness :
    is_quota_error "Bad gateway" = false ∧
    (process_user_message ready_state "hi" (.error "Bad gateway")).displayed =
      ["hi", "API error: " ++ "Bad gateway", error_response] ∧
    (process_user_message ready_state "hi" (.error "Bad gateway")).state.fallback_mode = false :=
  ⟨by decide,
   (non_quota_error_surfaced ready_state ⟨"gpt-4o", "Helpful Assistant", false⟩
     "hi" "Bad gateway" rfl rfl (by decide)).1,
   (non_quota_error_surfaced ready_state ⟨"gpt-4o", "Helpful Assistant", false⟩
     "hi" "Bad gateway" rfl rfl (by decide)).2.2⟩

/-- C10: every processed user message appends exactly two messages to the
history on every execution path — first the user's human message, then
exactly one assistant message — whether the turn runs in fallback mode,
succeeds, hits a quota/rate error, or hits any other completion error. -/
theorem submit_appends_exactly_two (s : SessionState) (user_input : String)
    (outcome : Except String String) :
    (process_user_message s user_input outcome).state.chat_history.length =
      s.chat_history.length + 2 ∧
    ∃ response, (process_user_message s user_input outcome).state.chat_history =
      s.chat_history ++ [⟨.human, user_input⟩, ⟨.ai, response⟩] := by
  obtain ⟨response, hresp⟩ := process_history_shape s user_input outcome
  exact ⟨by rw [hresp]; simp, response, hresp⟩

end AIChatbot
